import Mathlib

/-!
Verification of the message-lifecycle core of the Dr.Foscah medical-portfolio
backend (`src/medical2_portfolio.py`).

The SQLite `clients` table is modelled as a list of `Client` records together
with the autoincrement counter. Each `DatabaseManager` method becomes a pure
function from the database state (plus the wall-clock time, passed explicitly
as a `DateTime` value) to a `(Bool × String)` outcome paired with the new
state, mirroring the `Tuple[bool, str]` convention of the Python code.
Python's `datetime.now()` is modelled by the explicit `DateTime` argument;
`isoformat` and the `%Y-%m-%d %H:%M` format string are reproduced below.
-/

/-- A calendar timestamp, standing for a Python `datetime` value.
Fields are bounded the way `datetime` bounds them where it matters for
string output (no bound is needed for the properties proved here). -/
structure DateTime where
  year : Nat
  month : Nat
  day : Nat
  hour : Nat
  minute : Nat
  second : Nat
  microsecond : Nat
deriving Repr, DecidableEq

/-- Zero-pad a number to two digits, as `strftime`/`isoformat` do. -/
def pad2 (n : Nat) : String :=
  if n < 10 then "0" ++ toString n else toString n

/-- Zero-pad a number to four digits, for the year field. -/
def pad4 (n : Nat) : String :=
  if n < 10 then "000" ++ toString n
  else if n < 100 then "00" ++ toString n
  else if n < 1000 then "0" ++ toString n
  else toString n

/-- Zero-pad a number to six digits, for the microsecond field. -/
def pad6 (n : Nat) : String :=
  if n < 10 then "00000" ++ toString n
  else if n < 100 then "0000" ++ toString n
  else if n < 1000 then "000" ++ toString n
  else if n < 10000 then "00" ++ toString n
  else if n < 100000 then "0" ++ toString n
  else toString n

/-- Python `datetime.isoformat()`: `YYYY-MM-DDTHH:MM:SS` with a
`.ffffff` suffix exactly when the microsecond field is nonzero. -/
def DateTime.isoformat (t : DateTime) : String :=
  pad4 t.year ++ "-" ++ pad2 t.month ++ "-" ++ pad2 t.day ++ "T" ++
    pad2 t.hour ++ ":" ++ pad2 t.minute ++ ":" ++ pad2 t.second ++
    (if t.microsecond = 0 then "" else "." ++ pad6 t.microsecond)

/-- Python `now.strftime("%Y-%m-%d %H:%M")`, used in admin-note stamps. -/
def DateTime.stampYMDHM (t : DateTime) : String :=
  pad4 t.year ++ "-" ++ pad2 t.month ++ "-" ++ pad2 t.day ++ " " ++
    pad2 t.hour ++ ":" ++ pad2 t.minute

/-- One row of the `clients` table / the `Client` dataclass. -/
structure Client where
  id : Nat
  name : String
  email : String
  phone : String
  address : String
  project_type : String
  message : String
  status : String
  created_at : String
  read_by_admin : Bool
  admin_notes : String
  replied_by_admin : Bool
  reply_date : String
  reply_content : String
  reply_admin : String
deriving Repr, DecidableEq

/-- The `clients` table state: its rows plus the AUTOINCREMENT counter. -/
structure DbState where
  rows : List Client
  nextId : Nat
deriving Repr, DecidableEq

/-- A freshly initialized store: `init_database` creates the table empty
and SQLite AUTOINCREMENT hands out ids starting from 1. -/
def initDb : DbState := { rows := [], nextId := 1 }

/-- The five-value status enum of `update_client_status`. -/
def valid_statuses : List String :=
  ["new", "contacted", "in_progress", "completed", "archived"]

/-- Contact-form fields of a submission request.  The Python route reads a
JSON dict; an absent or empty (falsy) field is modelled as `""`, which is
exactly the distinction `data.get(field)` collapses to in the route's
required-field check, and the optional fields default to `""` via
`data.get(key, "")`. -/
structure ClientData where
  name : String
  email : String
  phone : String
  address : String
  project_type : String
  message : String
deriving Repr, DecidableEq

/-- `DatabaseManager.create_client`: INSERT of the six contact fields; the
schema defaults supply `status='new'`, `read_by_admin=0`, `admin_notes=''`,
`replied_by_admin=0`, `reply_content=''`, `reply_admin=''`,
`created_at=CURRENT_TIMESTAMP`, and the new row is read back and returned. -/
def create_client (db : DbState) (d : ClientData) (now : DateTime) :
    (Bool × String × Option Client) × DbState :=
  let c : Client :=
    { id := db.nextId
      name := d.name
      email := d.email
      phone := d.phone
      address := d.address
      project_type := d.project_type
      message := d.message
      status := "new"
      created_at := now.isoformat
      read_by_admin := false
      admin_notes := ""
      replied_by_admin := false
      reply_date := ""
      reply_content := ""
      reply_admin := "" }
  ((true, "Client created successfully", some c),
    { rows := db.rows ++ [c], nextId := db.nextId + 1 })

/-- The admin note appended by `update_client_status` when an admin name is
given: `f"\n\n[now] Status changed to 'status' by admin_name"`. -/
def statusNote (status admin_name : String) (now : DateTime) : String :=
  "\n\n[" ++ now.stampYMDHM ++ "] Status changed to \x27" ++ status ++
    "\x27 by " ++ admin_name

/-- `DatabaseManager.update_client_status`: rejects a status outside the
enum before touching the table; the first UPDATE sets the status and forces
`read_by_admin=1` on the matching row (rowcount 0 means the id is absent);
a second UPDATE appends the stamped note, but only when `admin_name` is
truthy (non-empty). -/
def update_client_status (db : DbState) (client_id : Nat)
    (status admin_name : String) (now : DateTime) : (Bool × String) × DbState :=
  if valid_statuses.contains status = false then
    ((false,
      "Invalid status. Must be one of: new, contacted, in_progress, completed, archived"),
      db)
  else if db.rows.any (fun r => r.id = client_id) = false then
    ((false, "Client not found"), db)
  else
    let rows1 := db.rows.map (fun r =>
      if r.id = client_id then
        { r with status := status, read_by_admin := true }
      else r)
    let rows2 :=
      if admin_name = "" then rows1
      else rows1.map (fun r =>
        if r.id = client_id then
          { r with admin_notes := r.admin_notes ++ statusNote status admin_name now }
        else r)
    ((true, "Status updated successfully"), { db with rows := rows2 })

/-- `DatabaseManager.mark_client_as_read`: sets `read_by_admin=1` and runs
the SQL CASE on the notes column: an empty notes field is replaced by the
new note text, a non-empty one gets `"\n\n" ++ note` appended (and the
appended text is `""` when the note argument is empty). -/
def mark_client_as_read (db : DbState) (client_id : Nat)
    (admin_notes admin_name : String) : (Bool × String) × DbState :=
  let p1 := admin_notes
  let p2 := if admin_notes = "" then "" else "\n\n" ++ admin_notes
  if db.rows.any (fun r => r.id = client_id) = false then
    ((false, "Client not found"), db)
  else
    ((true, "Client marked as read"),
      { db with rows := db.rows.map (fun r =>
          if r.id = client_id then
            { r with read_by_admin := true,
                     admin_notes := if r.admin_notes = "" then p1 else r.admin_notes ++ p2 }
          else r) })

/-- `DatabaseManager.mark_client_as_replied`: one UPDATE setting
`replied_by_admin=1`, the reply date to `datetime.now().isoformat()`, the
reply content and author, and forcing `read_by_admin=1`. -/
def mark_client_as_replied (db : DbState) (client_id : Nat)
    (reply_content admin_name : String) (now : DateTime) : (Bool × String) × DbState :=
  if db.rows.any (fun r => r.id = client_id) = false then
    ((false, "Client not found"), db)
  else
    ((true, "Client marked as replied"),
      { db with rows := db.rows.map (fun r =>
          if r.id = client_id then
            { r with replied_by_admin := true,
                     reply_date := now.isoformat,
                     reply_content := reply_content,
                     reply_admin := admin_name,
                     read_by_admin := true }
          else r) })

/-- `DatabaseManager.mark_all_as_read`: one UPDATE over every row with
`read_by_admin = 0`, setting the flag and appending (or installing, when the
notes field is empty) the uniform "Marked as read" note; reports the number
of rows affected. -/
def mark_all_as_read (db : DbState) (admin_name : String) (now : DateTime) :
    (Bool × String) × DbState :=
  let p1 := if admin_name = "" then "Marked as read"
    else "[" ++ now.stampYMDHM ++ "] Marked as read by " ++ admin_name
  let p2 := if admin_name = "" then "\n\nMarked as read"
    else "\n\n[" ++ now.stampYMDHM ++ "] Marked as read by " ++ admin_name
  let updated_count := (db.rows.filter (fun r => r.read_by_admin = false)).length
  ((true, "Marked " ++ toString updated_count ++ " messages as read"),
    { db with rows := db.rows.map (fun r =>
        if r.read_by_admin = false then
          { r with read_by_admin := true,
                   admin_notes := if r.admin_notes = "" then p1 else r.admin_notes ++ p2 }
        else r) })

/-- `DatabaseManager.delete_client`: DELETE by id, rowcount 0 means absent. -/
def delete_client (db : DbState) (client_id : Nat) : (Bool × String) × DbState :=
  if db.rows.any (fun r => r.id = client_id) = false then
    ((false, "Client not found"), db)
  else
    ((true, "Client deleted successfully"),
      { db with rows := db.rows.filter (fun r => ¬ r.id = client_id) })

/-- `DatabaseManager.get_client`: SELECT by id. -/
def get_client (db : DbState) (client_id : Nat) : Option Client :=
  db.rows.find? (fun r => r.id = client_id)

/-- The counts returned by `get_message_counts` (the per-status breakdown is
the `statusCount` function, one COUNT per status value). -/
structure MessageCounts where
  total : Nat
  unread : Nat
  read : Nat
  replied : Nat
  read_not_replied : Nat
  statusCount : String → Nat

/-- `DatabaseManager.get_message_counts`: each field is one COUNT query. -/
def get_message_counts (db : DbState) : MessageCounts :=
  { total := db.rows.length
    unread := (db.rows.filter (fun r => r.read_by_admin = false)).length
    read := (db.rows.filter (fun r => r.read_by_admin = true)).length
    replied := (db.rows.filter (fun r => r.replied_by_admin = true)).length
    read_not_replied :=
      (db.rows.filter (fun r => r.read_by_admin = true ∧ r.replied_by_admin = false)).length
    statusCount := fun s => (db.rows.filter (fun r => r.status = s)).length }

/-- Route `POST /api/clients` (`create_client` in `register_routes`):
rejects when any of name, email, message is falsy, then when the email
lacks `@` or `.`, and otherwise delegates to `DatabaseManager.create_client`. -/
def create_client_route (db : DbState) (d : ClientData) (now : DateTime) :
    (Bool × String × Option Client) × DbState :=
  if d.name = "" then ((false, "name is required", none), db)
  else if d.email = "" then ((false, "email is required", none), db)
  else if d.message = "" then ((false, "message is required", none), db)
  else if (d.email.data.contains '@' && d.email.data.contains '.') = false then
    ((false, "Please enter a valid email address", none), db)
  else create_client db d now

/-- Route `PUT /api/admin/clients/<id>/reply` (`mark_client_as_replied`):
rejects empty reply content with a 400, then delegates to
`DatabaseManager.mark_client_as_replied` under the authenticated admin's
username. -/
def mark_client_as_replied_route (db : DbState) (client_id : Nat)
    (reply_content admin_name : String) (now : DateTime) : (Bool × String) × DbState :=
  if reply_content = "" then ((false, "Reply content is required"), db)
  else mark_client_as_replied db client_id reply_content admin_name now

/-- One row of the `admin_users` table / the `AdminUser` dataclass. -/
structure AdminUser where
  id : Nat
  username : String
  password_hash : String
  created_at : String
deriving Repr, DecidableEq

/-- `DatabaseManager.authenticate_admin`.  Werkzeug's
`check_password_hash` is an external collaborator; it is abstracted as the
`checkHash` parameter (stored hash, candidate password ↦ verifies?).  Both
failure branches of the Python code return exactly
`(False, "Invalid credentials", None)`. -/
def authenticate_admin (checkHash : String → String → Bool)
    (admins : List AdminUser) (username password : String) :
    Bool × String × Option AdminUser :=
  match admins.find? (fun a => a.username = username) with
  | none => (false, "Invalid credentials", none)
  | some row =>
    if checkHash row.password_hash password = false then
      (false, "Invalid credentials", none)
    else
      (true, "Authentication successful", some row)

/-- Outcome of the send-reply route: an error response with its HTTP status
code, or the success JSON carrying the `email_sent` flag. -/
inductive ReplyRouteResult where
  | err (code : Nat) (msg : String)
  | ok (msg : String) (email_sent : Bool)
deriving Repr, DecidableEq

/-- Route `POST /api/admin/clients/<id>/send-reply` (`send_client_reply`).
The SMTP transport is external: `emailEnabled` models
`EmailManager.enabled` and `sendResult` the outcome of
`EmailManager.send_email` when the transport is configured (when it is not,
`send_email` is never consulted: the route skips the send and just records
the reply).  An email failure returns a 500 before
`mark_client_as_replied` runs; with the transport unconfigured the reply is
still recorded and the response says the email was not sent. -/
def send_client_reply_route (emailEnabled : Bool) (sendResult : Bool × String)
    (db : DbState) (client_id : Nat) (reply_content admin_name : String)
    (now : DateTime) : ReplyRouteResult × DbState :=
  if reply_content = "" then (.err 400 "Reply content is required", db)
  else
    match get_client db client_id with
    | none => (.err 404 "Client not found", db)
    | some _ =>
      if emailEnabled = true ∧ sendResult.1 = false then
        (.err 500 ("Failed to send email: " ++ sendResult.2), db)
      else
        let res := mark_client_as_replied db client_id reply_content admin_name now
        if res.1.1 = false then (.err 500 res.1.2, res.2)
        else
          (.ok (if emailEnabled then "Reply sent successfully"
                else "Reply saved (email not configured)") emailEnabled,
            res.2)

/-- The public operations that mutate the `clients` table, as exposed by the
HTTP facade: submission creation, status change, mark-read, bulk mark-read,
reply, delete. -/
inductive Op where
  | create (d : ClientData) (now : DateTime)
  | setStatus (client_id : Nat) (status admin_name : String) (now : DateTime)
  | markRead (client_id : Nat) (admin_notes admin_name : String)
  | markAllRead (admin_name : String) (now : DateTime)
  | reply (client_id : Nat) (reply_content admin_name : String) (now : DateTime)
  | delete (client_id : Nat)

/-- The state transition performed by one public operation (the state
component of the corresponding route handler). -/
def Op.apply (op : Op) (db : DbState) : DbState :=
  match op with
  | .create d now => (create_client_route db d now).2
  | .setStatus cid s a now => (update_client_status db cid s a now).2
  | .markRead cid notes a => (mark_client_as_read db cid notes a).2
  | .markAllRead a now => (mark_all_as_read db a now).2
  | .reply cid content a now => (mark_client_as_replied_route db cid content a now).2
  | .delete cid => (delete_client db cid).2

/-- Database states reachable from a freshly initialized store by the
public operations. -/
inductive Reachable : DbState → Prop where
  | init : Reachable initDb
  | step (op : Op) (db : DbState) : Reachable db → Reachable (op.apply db)

/-! ### Helper lemmas -/

/-- A boolean test partitions a list: the rows failing it plus the rows
passing it are all the rows. -/
theorem length_filter_bool_partition {α : Type} (f : α → Bool) (l : List α) :
    (l.filter (fun x => f x = false)).length + (l.filter (fun x => f x = true)).length
      = l.length := by
  have h1 : (fun x => decide (f x = false)) = (fun x => ! f x) := by
    funext x; cases hfx : f x <;> simp
  have h2 : (fun x => decide (f x = true)) = f := by
    funext x; cases hfx : f x <;> simp
  rw [h1, h2, Nat.add_comm]
  exact (List.length_eq_length_filter_add f).symm

/-- A pointwise guarantee about a map gives a `Forall₂` between a list and
its image. -/
theorem forall₂_map_of_pointwise {α : Type} (R : α → α → Prop) (f : α → α)
    (h : ∀ x, R x (f x)) : ∀ l : List α, List.Forall₂ R l (l.map f) := by
  intro l
  induction l with
  | nil => simp
  | cons x xs ih => exact List.Forall₂.cons (h x) ih

/-- A reflexive pointwise relation holds between a list and itself. -/
theorem forall₂_refl_of_pointwise {α : Type} (R : α → α → Prop)
    (h : ∀ x, R x x) (l : List α) : List.Forall₂ R l l :=
  List.forall₂_same.mpr (fun x _ => h x)

/-- `isoformat` output always contains the date separators, hence is
never the empty string. -/
theorem isoformat_ne_empty (t : DateTime) : t.isoformat ≠ "" := by
  intro h
  have hlen := congrArg String.length h
  simp only [DateTime.isoformat, String.length_append] at hlen
  have h1 : ("-" : String).length = 1 := rfl
  have h0 : ("" : String).length = 0 := rfl
  omega

/-! ### Concrete sample data for witnesses and counterexamples -/

/-- A concrete submission row as stored after a fresh create. -/
def sampleRow : Client :=
  { id := 1
    name := "Jane Doe"
    email := "jane@example.com"
    phone := ""
    address := ""
    project_type := ""
    message := "Hello"
    status := "new"
    created_at := "2026-01-02T03:04:05"
    read_by_admin := false
    admin_notes := ""
    replied_by_admin := false
    reply_date := ""
    reply_content := ""
    reply_admin := "" }

/-- A store holding exactly the sample row. -/
def sampleDb : DbState := { rows := [sampleRow], nextId := 2 }

/-- A concrete wall-clock instant. -/
def t0 : DateTime := ⟨2026, 1, 2, 3, 4, 5, 0⟩

/-- The seeded admin-account table (`init_database` seeds exactly one
account with username `admin`). The stored hash is abstract text. -/
def sampleAdmins : List AdminUser :=
  [{ id := 1, username := "admin", password_hash := "HASHED:admin9048", created_at := "" }]

/-- A concrete stand-in for werkzeug's `check_password_hash`: the stored
hash verifies exactly against the password it was generated from. -/
def sampleCheckHash : String → String → Bool :=
  fun h p => h == "HASHED:" ++ p

/-! ### C3 -/

/-- C3: for every store, submission id and status value outside the
five-value enum, `update_client_status` returns the InvalidState error and
leaves the whole table (hence every row) unchanged. -/
theorem C3_invalid_status_rejected (db : DbState) (cid : Nat) (st a : String)
    (now : DateTime) (h : st ∉ valid_statuses) :
    update_client_status db cid st a now =
      ((false,
        "Invalid status. Must be one of: new, contacted, in_progress, completed, archived"),
        db) := by
  simp [update_client_status, h]

/-- C3 witness: `setStatus(1, "bogus")` on the sample store is rejected
with the row untouched. -/
theorem C3_invalid_status_rejected_witness :
    "bogus" ∉ valid_statuses ∧
      update_client_status sampleDb 1 "bogus" "admin" t0 =
        ((false,
          "Invalid status. Must be one of: new, contacted, in_progress, completed, archived"),
          sampleDb) :=
  ⟨by decide, C3_invalid_status_rejected sampleDb 1 "bogus" "admin" t0 (by decide)⟩

/-! ### C5 -/

/-- C5: in every store state, the unread count plus the read count equals
the total count: the read flag partitions the rows. -/
theorem C5_counts_partition (db : DbState) :
    (get_message_counts db).unread + (get_message_counts db).read
      = (get_message_counts db).total := by
  simpa [get_message_counts] using
    length_filter_bool_partition (fun r : Client => r.read_by_admin) db.rows

/-! ### C7 -/

/-- Any failing `authenticate_admin` call returns the one fixed failure
triple, whichever branch failed. -/
theorem authenticate_admin_fail_shape (ch : String → String → Bool)
    (admins : List AdminUser) (u p : String)
    (h : (authenticate_admin ch admins u p).1 = false) :
    authenticate_admin ch admins u p = (false, "Invalid credentials", none) := by
  unfold authenticate_admin at h ⊢
  cases hf : admins.find? (fun a => a.username = u) with
  | none => simp [hf]
  | some row =>
    simp only [hf] at h ⊢
    cases hch : ch row.password_hash p <;> simp [hch] at h ⊢

/-- C7: two failing authentication runs — whether the username is unknown
or the password fails hash verification — return identical results, so the
output does not reveal whether the username exists. -/
theorem C7_auth_failure_indistinguishable (ch : String → String → Bool)
    (admins : List AdminUser) (u₁ p₁ u₂ p₂ : String)
    (h₁ : (authenticate_admin ch admins u₁ p₁).1 = false)
    (h₂ : (authenticate_admin ch admins u₂ p₂).1 = false) :
    authenticate_admin ch admins u₁ p₁ = authenticate_admin ch admins u₂ p₂ := by
  rw [authenticate_admin_fail_shape ch admins u₁ p₁ h₁,
    authenticate_admin_fail_shape ch admins u₂ p₂ h₂]

/-- C7 witness: an unknown-username failure and a wrong-password failure on
the seeded account table produce equal results. -/
theorem C7_auth_failure_indistinguishable_witness :
    (authenticate_admin sampleCheckHash sampleAdmins "ghost" "admin9048").1 = false ∧
    (authenticate_admin sampleCheckHash sampleAdmins "admin" "wrong").1 = false ∧
    authenticate_admin sampleCheckHash sampleAdmins "ghost" "admin9048"
      = authenticate_admin sampleCheckHash sampleAdmins "admin" "wrong" :=
  ⟨by decide, by decide,
    C7_auth_failure_indistinguishable sampleCheckHash sampleAdmins
      "ghost" "admin9048" "admin" "wrong" (by decide) (by decide)⟩

/-! ### C10 -/

/-- C10: no lifecycle operation clears the read flag.  Each of `markRead`,
`markAllRead`, `setStatus` and `reply` relates old rows to new rows
pointwise (none of them inserts or reorders rows), and along every such
pair a set read flag stays set. -/
theorem C10_read_flag_monotone (db : DbState) (cid : Nat)
    (notes a st content : String) (now : DateTime) :
    List.Forall₂ (fun o n => o.read_by_admin = true → n.read_by_admin = true)
        db.rows (mark_client_as_read db cid notes a).2.rows ∧
    List.Forall₂ (fun o n => o.read_by_admin = true → n.read_by_admin = true)
        db.rows (mark_all_as_read db a now).2.rows ∧
    List.Forall₂ (fun o n => o.read_by_admin = true → n.read_by_admin = true)
        db.rows (update_client_status db cid st a now).2.rows ∧
    List.Forall₂ (fun o n => o.read_by_admin = true → n.read_by_admin = true)
        db.rows (mark_client_as_replied_route db cid content a now).2.rows := by
  refine ⟨?_, ?_, ?_, ?_⟩
  · unfold mark_client_as_read
    by_cases hex : db.rows.any (fun r => r.id = cid) = false
    · simp only [hex, if_true, reduceIte]
      exact forall₂_refl_of_pointwise _ (fun x h => h) _
    · simp only [hex, reduceIte]
      exact forall₂_map_of_pointwise _ _
        (fun r => by by_cases hr : r.id = cid <;> simp [hr]) _
  · unfold mark_all_as_read
    exact forall₂_map_of_pointwise _ _
      (fun r => by by_cases hr : r.read_by_admin = false <;> simp [hr]) _
  · unfold update_client_status
    by_cases hv : valid_statuses.contains st = false
    · simp only [hv, reduceIte]
      exact forall₂_refl_of_pointwise _ (fun x h => h) _
    · by_cases hex : db.rows.any (fun r => r.id = cid) = false
      · simp only [hv, hex, reduceIte]
        exact forall₂_refl_of_pointwise _ (fun x h => h) _
      · simp only [hv, hex, reduceIte]
        by_cases ha : a = ""
        · simp only [ha, reduceIte]
          exact forall₂_map_of_pointwise _ _
            (fun r => by by_cases hr : r.id = cid <;> simp [hr]) _
        · simp only [ha, reduceIte, List.map_map]
          exact forall₂_map_of_pointwise _ _
            (fun r => by
              by_cases hr : r.id = cid <;> simp [Function.comp, hr]) _
  · unfold mark_client_as_replied_route
    by_cases hc : content = ""
    · simp only [hc, reduceIte]
      exact forall₂_refl_of_pointwise _ (fun x h => h) _
    · simp only [hc, reduceIte]
      unfold mark_client_as_replied
      by_cases hex : db.rows.any (fun r => r.id = cid) = false
      · simp only [hex, reduceIte]
        exact forall₂_refl_of_pointwise _ (fun x h => h) _
      · simp only [hex, reduceIte]
        exact forall₂_map_of_pointwise _ _
          (fun r => by by_cases hr : r.id = cid <;> simp [hr]) _

/-! ### C1 -/

/-- C1 counterexample: with an empty actor name (the Python default
`admin_name=""`), `setStatus` on a present id with a valid status succeeds
and forces the read flag, but appends no note at all: the notes field is
exactly as empty as before, refuting "appends a timestamped note recording
the status change and the actor". -/
theorem C1_setStatus_counterexample :
    (update_client_status sampleDb 1 "contacted" "" t0).1.1 = true ∧
    (update_client_status sampleDb 1 "contacted" "" t0).2.rows.map Client.admin_notes
      = [""] ∧
    sampleDb.rows.map Client.admin_notes = [""] :=
  ⟨by decide, by decide, by decide⟩

/-- C1 (amended): for a status in the enum, `setStatus` on a present id
succeeds, sets the status, forces `read=true`, and — when the actor name is
non-empty — appends the timestamped status-change note to the row's notes
(with an empty actor the notes are left untouched); on an absent id it
fails with Client not found and changes nothing. -/
theorem C1_setStatus_amended (db : DbState) (cid : Nat) (st a : String)
    (now : DateTime) (hst : st ∈ valid_statuses) :
    (db.rows.any (fun r => r.id = cid) = true →
      (update_client_status db cid st a now).1 = (true, "Status updated successfully") ∧
      (update_client_status db cid st a now).2.rows = db.rows.map (fun r =>
        if r.id = cid then
          { r with status := st, read_by_admin := true,
                   admin_notes := if a = "" then r.admin_notes
                     else r.admin_notes ++ statusNote st a now }
        else r)) ∧
    (db.rows.any (fun r => r.id = cid) = false →
      update_client_status db cid st a now = ((false, "Client not found"), db)) := by
  have hcon : valid_statuses.contains st = true := List.elem_eq_true_of_mem hst
  constructor
  · intro hex
    unfold update_client_status
    rw [hcon, hex]
    rw [if_neg (show ¬(true = false) by decide), if_neg (show ¬(true = false) by decide)]
    dsimp only
    by_cases ha : a = ""
    · rw [if_pos ha]
      refine ⟨rfl, ?_⟩
      show List.map _ db.rows = List.map _ db.rows
      apply List.map_congr_left
      intro r _
      by_cases hr : r.id = cid <;> simp [hr, ha]
    · rw [if_neg ha]
      refine ⟨rfl, ?_⟩
      show List.map _ (List.map _ db.rows) = List.map _ db.rows
      rw [List.map_map]
      apply List.map_congr_left
      intro r _
      by_cases hr : r.id = cid <;> simp [Function.comp, hr, ha]
  · intro hex
    unfold update_client_status
    rw [hcon, hex]
    rfl

/-- C1 witness: the amended statement exercised on the sample store with
actor `admin` and status `contacted`. -/
theorem C1_setStatus_amended_witness :
    "contacted" ∈ valid_statuses ∧
    ((sampleDb.rows.any (fun r => r.id = 1) = true →
      (update_client_status sampleDb 1 "contacted" "admin" t0).1
          = (true, "Status updated successfully") ∧
      (update_client_status sampleDb 1 "contacted" "admin" t0).2.rows
          = sampleDb.rows.map (fun r =>
        if r.id = 1 then
          { r with status := "contacted", read_by_admin := true,
                   admin_notes := if ("admin" : String) = "" then r.admin_notes
                     else r.admin_notes ++ statusNote "contacted" "admin" t0 }
        else r)) ∧
    (sampleDb.rows.any (fun r => r.id = 1) = false →
      update_client_status sampleDb 1 "contacted" "admin" t0
        = ((false, "Client not found"), sampleDb))) :=
  ⟨by decide, C1_setStatus_amended sampleDb 1 "contacted" "admin" t0 (by decide)⟩

/-! ### C2 -/

/-- C2 counterexample: with an empty actor name the reply route succeeds,
yet the stored reply author field is the empty string, refuting "reply
content, reply timestamp and reply author fields all set and non-empty". -/
theorem C2_reply_counterexample :
    (mark_client_as_replied_route sampleDb 1 "Thanks!" "" t0).1.1 = true ∧
    (mark_client_as_replied_route sampleDb 1 "Thanks!" "" t0).2.rows.map
        Client.reply_admin = [""] :=
  ⟨by decide, by decide⟩

/-- C2 (amended): `reply` fails with ValidationError on empty text and
NotFound on an absent id; on success the row has `replied=true`,
`read=true`, the reply content equal to the (non-empty) text, the reply
timestamp equal to the (never-empty) `isoformat` of the call time, and the
reply author equal to the acting admin name — non-empty exactly when that
name is non-empty. -/
theorem C2_reply_amended (db : DbState) (cid : Nat) (text a : String)
    (now : DateTime) :
    (text = "" → mark_client_as_replied_route db cid text a now
        = ((false, "Reply content is required"), db)) ∧
    (text ≠ "" → db.rows.any (fun r => r.id = cid) = false →
      mark_client_as_replied_route db cid text a now
        = ((false, "Client not found"), db)) ∧
    (text ≠ "" → db.rows.any (fun r => r.id = cid) = true →
      (mark_client_as_replied_route db cid text a now).1
          = (true, "Client marked as replied") ∧
      (mark_client_as_replied_route db cid text a now).2.rows
          = db.rows.map (fun r =>
        if r.id = cid then
          { r with replied_by_admin := true, reply_date := now.isoformat,
                   reply_content := text, reply_admin := a, read_by_admin := true }
        else r) ∧
      text ≠ "" ∧ now.isoformat ≠ "") := by
  refine ⟨fun ht => ?_, fun ht hex => ?_, fun ht hex => ?_⟩
  · simp [mark_client_as_replied_route, ht]
  · simp [mark_client_as_replied_route, mark_client_as_replied, ht, hex]
  · unfold mark_client_as_replied_route mark_client_as_replied
    rw [if_neg ht, hex, if_neg (show ¬(true = false) by decide)]
    exact ⟨rfl, rfl, ht, isoformat_ne_empty now⟩

/-- C2 witness: the amended statement exercised on the sample store with
actor `admin` and text `Thanks!`. -/
theorem C2_reply_amended_witness :
    ("Thanks!" : String) ≠ "" ∧ sampleDb.rows.any (fun r => r.id = 1) = true ∧
    ((mark_client_as_replied_route sampleDb 1 "Thanks!" "admin" t0).1
        = (true, "Client marked as replied") ∧
     (mark_client_as_replied_route sampleDb 1 "Thanks!" "admin" t0).2.rows
        = sampleDb.rows.map (fun r =>
          if r.id = 1 then
            { r with replied_by_admin := true, reply_date := t0.isoformat,
                     reply_content := "Thanks!", reply_admin := "admin",
                     read_by_admin := true }
          else r) ∧
     ("Thanks!" : String) ≠ "" ∧ t0.isoformat ≠ "") :=
  ⟨by decide, by decide,
    (C2_reply_amended sampleDb 1 "Thanks!" "admin" t0).2.2 (by decide) (by decide)⟩

/-! ### C6 -/

/-- C6: with name, email, message all present and an email containing both
`@` and `.`, the create route inserts exactly one new row (status `new`,
unread, unreplied, carrying the submitted fields) and returns the stored
record; with any required field missing or a malformed email it fails and
inserts nothing. -/
theorem C6_create (db : DbState) (d : ClientData) (now : DateTime) :
    (d.name ≠ "" → d.email ≠ "" → d.message ≠ "" →
      d.email.data.contains '@' = true → d.email.data.contains '.' = true →
      ∃ c : Client,
        (create_client_route db d now).1 = (true, "Client created successfully", some c) ∧
        (create_client_route db d now).2.rows = db.rows ++ [c] ∧
        (create_client_route db d now).2.nextId = db.nextId + 1 ∧
        c.status = "new" ∧ c.read_by_admin = false ∧ c.replied_by_admin = false ∧
        c.name = d.name ∧ c.email = d.email ∧ c.message = d.message) ∧
    ((d.name = "" ∨ d.email = "" ∨ d.message = "" ∨
        d.email.data.contains '@' = false ∨ d.email.data.contains '.' = false) →
      (create_client_route db d now).1.1 = false ∧
      (create_client_route db d now).1.2.2 = none ∧
      (create_client_route db d now).2 = db) := by
  constructor
  · intro h1 h2 h3 h4 h5
    unfold create_client_route create_client
    rw [if_neg h1, if_neg h2, if_neg h3, h4, h5,
      if_neg (show ¬((true && true) = false) by decide)]
    exact ⟨_, rfl, rfl, rfl, rfl, rfl, rfl, rfl, rfl, rfl⟩
  · intro h
    unfold create_client_route create_client
    by_cases hn : d.name = ""
    · simp [hn]
    · by_cases he : d.email = ""
      · simp [hn, he]
      · by_cases hm : d.message = ""
        · simp [hn, he, hm]
        · have hcf : (d.email.data.contains '@' && d.email.data.contains '.') = false := by
            rcases h with h | h | h | h | h
            · exact absurd h hn
            · exact absurd h he
            · exact absurd h hm
            · simp at h; simp [h]
            · simp at h; simp [h]
          rw [if_neg hn, if_neg he, if_neg hm, if_pos hcf]
          exact ⟨rfl, rfl, rfl⟩

/-- Submission fields of the scenario create request. -/
def sampleData : ClientData :=
  { name := "Jane Doe", email := "jane@example.com", phone := "", address := "",
    project_type := "", message := "Hello" }

/-- C6 witness: the scenario create on a fresh store succeeds and stores
the record with status `new`, unread, unreplied. -/
theorem C6_create_witness :
    sampleData.name ≠ "" ∧ sampleData.email ≠ "" ∧ sampleData.message ≠ "" ∧
    sampleData.email.data.contains '@' = true ∧ sampleData.email.data.contains '.' = true ∧
    (∃ c : Client,
      (create_client_route initDb sampleData t0).1
          = (true, "Client created successfully", some c) ∧
      (create_client_route initDb sampleData t0).2.rows = initDb.rows ++ [c] ∧
      (create_client_route initDb sampleData t0).2.nextId = initDb.nextId + 1 ∧
      c.status = "new" ∧ c.read_by_admin = false ∧ c.replied_by_admin = false ∧
      c.name = sampleData.name ∧ c.email = sampleData.email ∧
      c.message = sampleData.message) :=
  ⟨by decide, by decide, by decide, by decide, by decide,
    (C6_create initDb sampleData t0).1 (by decide) (by decide) (by decide)
      (by decide) (by decide)⟩

/-! ### C8 -/

/-- C8: on the send-email-then-mark-replied entry point, with non-empty
reply text and a present id: (a) with the transport configured and the send
failing, the route answers 500 and the store — hence the submission row —
is completely unchanged (no reply is recorded); (b) with the transport not
configured, whatever the abstract send outcome would have been, the reply
is still recorded (replied=true, read=true, reply fields set) and the
response flags the email as not sent. -/
theorem C8_send_reply_email_outcomes (db : DbState) (cid : Nat)
    (text a sendMsg : String) (now : DateTime) (sr : Bool × String)
    (ht : text ≠ "") (hex : db.rows.any (fun r => r.id = cid) = true) :
    (send_client_reply_route true (false, sendMsg) db cid text a now
        = (.err 500 ("Failed to send email: " ++ sendMsg), db)) ∧
    (send_client_reply_route false sr db cid text a now).1
        = .ok "Reply saved (email not configured)" false ∧
    (send_client_reply_route false sr db cid text a now).2.rows
        = db.rows.map (fun r =>
      if r.id = cid then
        { r with replied_by_admin := true, reply_date := now.isoformat,
                 reply_content := text, reply_admin := a, read_by_admin := true }
      else r) := by
  have hsome : ∃ c, get_client db cid = some c := by
    unfold get_client
    rw [← Option.isSome_iff_exists, List.find?_isSome]
    simpa using hex
  obtain ⟨c, hc⟩ := hsome
  have hmark : mark_client_as_replied db cid text a now
      = ((true, "Client marked as replied"),
        { db with rows := db.rows.map (fun r =>
            if r.id = cid then
              { r with replied_by_admin := true, reply_date := now.isoformat,
                       reply_content := text, reply_admin := a, read_by_admin := true }
            else r) }) := by
    unfold mark_client_as_replied
    rw [hex]
    rfl
  refine ⟨?_, ?_, ?_⟩
  · unfold send_client_reply_route
    rw [if_neg ht, hc, if_pos ⟨rfl, rfl⟩]
  · unfold send_client_reply_route
    rw [if_neg ht, hc, if_neg (fun hcontra => by exact absurd hcontra.1 (by decide)),
      hmark]
    rfl
  · unfold send_client_reply_route
    rw [if_neg ht, hc, if_neg (fun hcontra => by exact absurd hcontra.1 (by decide)),
      hmark]
    rfl

/-- C8 witness: both branches exercised on the sample store. -/
theorem C8_send_reply_email_outcomes_witness :
    ("Thanks!" : String) ≠ "" ∧ sampleDb.rows.any (fun r => r.id = 1) = true ∧
    ((send_client_reply_route true (false, "boom") sampleDb 1 "Thanks!" "admin" t0
        = (.err 500 ("Failed to send email: " ++ "boom"), sampleDb)) ∧
     (send_client_reply_route false (true, "ignored") sampleDb 1 "Thanks!" "admin" t0).1
        = .ok "Reply saved (email not configured)" false ∧
     (send_client_reply_route false (true, "ignored") sampleDb 1 "Thanks!" "admin" t0).2.rows
        = sampleDb.rows.map (fun r =>
       if r.id = 1 then
         { r with replied_by_admin := true, reply_date := t0.isoformat,
                  reply_content := "Thanks!", reply_admin := "admin",
                  read_by_admin := true }
       else r)) :=
  ⟨by decide, by decide,
    C8_send_reply_email_outcomes sampleDb 1 "Thanks!" "admin" "boom" t0
      (true, "ignored") (by decide) (by decide)⟩

/-! ### C4 -/

/-- After any single public operation, each row's status is either in the
enum outright (freshly inserted rows get `new`, status changes are
enum-checked) or inherited unchanged from some row of the pre-state. -/
theorem status_after_op (op : Op) (db : DbState) :
    ∀ c ∈ (op.apply db).rows,
      c.status ∈ valid_statuses ∨ ∃ r ∈ db.rows, c.status = r.status := by
  intro c hc
  cases op with
  | create d now =>
    dsimp only [Op.apply] at hc
    unfold create_client_route create_client at hc
    by_cases hn : d.name = ""
    · rw [if_pos hn] at hc; exact Or.inr ⟨c, hc, rfl⟩
    · rw [if_neg hn] at hc
      by_cases he : d.email = ""
      · rw [if_pos he] at hc; exact Or.inr ⟨c, hc, rfl⟩
      · rw [if_neg he] at hc
        by_cases hm : d.message = ""
        · rw [if_pos hm] at hc; exact Or.inr ⟨c, hc, rfl⟩
        · rw [if_neg hm] at hc
          by_cases hem : (d.email.data.contains '@' && d.email.data.contains '.') = false
          · rw [if_pos hem] at hc; exact Or.inr ⟨c, hc, rfl⟩
          · rw [if_neg hem] at hc
            dsimp only at hc
            rcases List.mem_append.mp hc with h | h
            · exact Or.inr ⟨c, h, rfl⟩
            · rw [List.mem_singleton] at h
              subst h
              exact Or.inl (show "new" ∈ valid_statuses by decide)
  | setStatus cid st aname now =>
    dsimp only [Op.apply] at hc
    unfold update_client_status at hc
    by_cases hv : valid_statuses.contains st = false
    · rw [if_pos hv] at hc; exact Or.inr ⟨c, hc, rfl⟩
    · rw [if_neg hv] at hc
      have hcon : valid_statuses.contains st = true := by
        cases h2 : valid_statuses.contains st
        · exact absurd h2 hv
        · rfl
      have hst : st ∈ valid_statuses := List.mem_of_elem_eq_true hcon
      by_cases hex : db.rows.any (fun r => r.id = cid) = false
      · rw [if_pos hex] at hc; exact Or.inr ⟨c, hc, rfl⟩
      · rw [if_neg hex] at hc
        dsimp only at hc
        by_cases ha : aname = ""
        · rw [if_pos ha] at hc
          rcases List.mem_map.mp hc with ⟨r, hr, rfl⟩
          by_cases hid : r.id = cid
          · rw [if_pos hid]; exact Or.inl hst
          · rw [if_neg hid]; exact Or.inr ⟨r, hr, rfl⟩
        · rw [if_neg ha, List.map_map] at hc
          rcases List.mem_map.mp hc with ⟨r, hr, rfl⟩
          dsimp only [Function.comp]
          by_cases hid : r.id = cid
          · rw [if_pos hid]
            rw [if_pos (show (({ r with status := st, read_by_admin := true } : Client).id = cid) from hid)]
            exact Or.inl hst
          · rw [if_neg hid, if_neg hid]
            exact Or.inr ⟨r, hr, rfl⟩
  | markRead cid notes aname =>
    dsimp only [Op.apply] at hc
    unfold mark_client_as_read at hc
    by_cases hex : db.rows.any (fun r => r.id = cid) = false
    · rw [if_pos hex] at hc; exact Or.inr ⟨c, hc, rfl⟩
    · rw [if_neg hex] at hc
      dsimp only at hc
      rcases List.mem_map.mp hc with ⟨r, hr, rfl⟩
      by_cases hid : r.id = cid
      · rw [if_pos hid]; exact Or.inr ⟨r, hr, rfl⟩
      · rw [if_neg hid]; exact Or.inr ⟨r, hr, rfl⟩
  | markAllRead aname now =>
    dsimp only [Op.apply] at hc
    unfold mark_all_as_read at hc
    dsimp only at hc
    rcases List.mem_map.mp hc with ⟨r, hr, rfl⟩
    by_cases hrd : r.read_by_admin = false
    · rw [if_pos hrd]; exact Or.inr ⟨r, hr, rfl⟩
    · rw [if_neg hrd]; exact Or.inr ⟨r, hr, rfl⟩
  | reply cid content aname now =>
    dsimp only [Op.apply] at hc
    unfold mark_client_as_replied_route mark_client_as_replied at hc
    by_cases htext : content = ""
    · rw [if_pos htext] at hc; exact Or.inr ⟨c, hc, rfl⟩
    · rw [if_neg htext] at hc
      by_cases hex : db.rows.any (fun r => r.id = cid) = false
      · rw [if_pos hex] at hc; exact Or.inr ⟨c, hc, rfl⟩
      · rw [if_neg hex] at hc
        dsimp only at hc
        rcases List.mem_map.mp hc with ⟨r, hr, rfl⟩
        by_cases hid : r.id = cid
        · rw [if_pos hid]; exact Or.inr ⟨r, hr, rfl⟩
        · rw [if_neg hid]; exact Or.inr ⟨r, hr, rfl⟩
  | delete cid =>
    dsimp only [Op.apply] at hc
    unfold delete_client at hc
    by_cases hex : db.rows.any (fun r => r.id = cid) = false
    · rw [if_pos hex] at hc; exact Or.inr ⟨c, hc, rfl⟩
    · rw [if_neg hex] at hc
      dsimp only at hc
      exact Or.inr ⟨c, List.mem_of_mem_filter hc, rfl⟩


/-- C4: in every database state reachable from a freshly initialized store
by the public operations, every row's status is one of the five enumerated
values. -/
theorem C4_status_enum_invariant (db : DbState) (h : Reachable db) :
    ∀ c ∈ db.rows, c.status ∈ valid_statuses := by
  induction h with
  | init => intro c hc; simp [initDb] at hc
  | step op db0 hdb ih =>
    intro c hc
    rcases status_after_op op db0 c hc with h1 | ⟨r, hr, heq⟩
    · exact h1
    · rw [heq]; exact ih r hr

/-- A concrete reachable state: the scenario submission applied to the
fresh store. -/
def reachedDb : DbState := Op.apply (.create sampleData t0) initDb

/-- C4 witness: the invariant evaluated on a concrete reachable state. -/
theorem C4_status_enum_invariant_witness :
    Reachable reachedDb ∧ ∀ c ∈ reachedDb.rows, c.status ∈ valid_statuses :=
  ⟨Reachable.step (.create sampleData t0) initDb Reachable.init,
    C4_status_enum_invariant reachedDb
      (Reachable.step (.create sampleData t0) initDb Reachable.init)⟩

/-! ### Site content store (C9)

The `website_content` table is a section-keyed text store.  The save route
receives a JSON object; dict and list values are serialized with
`json.dumps` and every other value is passed through Python `str()` before
the SQL `INSERT OR REPLACE`.  The read route tries `json.loads` on each
stored text under a bare `except:` and falls back to the raw string.

Python's `json` module is an external collaborator; it is modelled after
its default CPython implementation (the C scanner and encoder, with
`strict=True`, `ensure_ascii=True` and the default separators): the
scanner's number grammar (an optional minus sign, then a lone `0` or a
nonzero digit followed by digits, then optional fraction and exponent
suffixes - so a leading zero ends the numeral), the constants `NaN`,
`Infinity` and `-Infinity`, `\uXXXX` escapes with surrogate-pair
combination, rejection of raw control characters inside string literals,
and on output the `\uXXXX` transport encoding of every character outside
printable ASCII.  The model's value type carries integer numbers only: an
input that Python parses to a value containing a float (a numeral with a
fraction or exponent suffix, or one of the float constants) or a lone
surrogate (which no model string can hold) is classified as
parsed-but-unmodelled rather than given a value.  `obj` models a Python
dict as its key/value pairs in insertion order (duplicate keys cannot
reach `json.dumps`, whose input here is a dict).
-/

/-- A decoded JSON value (the payload of the content routes). `obj` models
a Python dict as its key/value pairs in insertion order. -/
inductive JValue where
  | null
  | bool (b : Bool)
  | num (n : Int)
  | str (s : String)
  | arr (xs : List JValue)
  | obj (ps : List (String × JValue))

/-- Lowercase hexadecimal digit character (the `%04x` formatting used by
the `ensure_ascii` encoder). -/
def hexDigitChar (k : Nat) : Char :=
  if k < 10 then Char.ofNat (48 + k) else Char.ofNat (87 + k)

/-- The four hex digits of a `%04x`-formatted code unit. -/
def escHexDigits (n : Nat) : List Char :=
  [hexDigitChar (n / 4096 % 16), hexDigitChar (n / 256 % 16),
   hexDigitChar (n / 16 % 16), hexDigitChar (n % 16)]

/-- One `\uXXXX` escape. -/
def escapeHex4 (n : Nat) : List Char :=
  '\\' :: 'u' :: escHexDigits n

/-- `json.dumps` escaping of one string character with the default
`ensure_ascii=True`: two-character escapes for the quote, the backslash
and the five named control characters, printable ASCII kept raw, `\uXXXX`
for every other BMP character, and a surrogate-pair escape for an astral
character. -/
def escapeChar (c : Char) : List Char :=
  if c = '"' then ['\\', '"']
  else if c = '\\' then ['\\', '\\']
  else if c = '\x08' then ['\\', 'b']
  else if c = '\x0c' then ['\\', 'f']
  else if c = '\n' then ['\\', 'n']
  else if c = '\r' then ['\\', 'r']
  else if c = '\t' then ['\\', 't']
  else if 0x20 ≤ c.toNat ∧ c.toNat ≤ 0x7e then [c]
  else if c.toNat < 0x10000 then escapeHex4 c.toNat
  else
    escapeHex4 (0xd800 + (c.toNat - 0x10000) / 0x400) ++
      escapeHex4 (0xdc00 + (c.toNat - 0x10000) % 0x400)

/-- `json.dumps` escaping of a string body. -/
def escapeChars : List Char → List Char
  | [] => []
  | c :: cs => escapeChar c ++ escapeChars cs

/-- Decimal digits of a natural number, most significant first. -/
def digitChars (n : Nat) : List Char :=
  if n = 0 then ['0'] else (Nat.digits 10 n).reverse.map (fun d => Char.ofNat (48 + d))

/-- Python `str()` of an integer: optional minus sign and decimal digits. -/
def intChars : Int → List Char
  | .ofNat m => digitChars m
  | .negSucc m => '-' :: digitChars (m + 1)

mutual

/-- `json.dumps` with its default separators `", "` and `": "`. -/
def dumpChars : JValue → List Char
  | .str s => '"' :: (escapeChars s.data ++ ['"'])
  | .num n => intChars n
  | .bool false => ['f', 'a', 'l', 's', 'e']
  | .bool true => ['t', 'r', 'u', 'e']
  | .null => ['n', 'u', 'l', 'l']
  | .arr xs => '[' :: (dumpList xs ++ [']'])
  | .obj ps => '\x7b' :: (dumpMembers ps ++ ['\x7d'])

/-- Array elements, comma-space separated. -/
def dumpList : List JValue → List Char
  | [] => []
  | [v] => dumpChars v
  | v :: vs => dumpChars v ++ ',' :: ' ' :: dumpList vs

/-- Object members, comma-space separated, `": "` after each key. -/
def dumpMembers : List (String × JValue) → List Char
  | [] => []
  | [(k, v)] => '"' :: (escapeChars k.data ++ '"' :: ':' :: ' ' :: dumpChars v)
  | (k, v) :: ps =>
    ('"' :: (escapeChars k.data ++ '"' :: ':' :: ' ' :: dumpChars v)) ++
      ',' :: ' ' :: dumpMembers ps

end

/-- JSON insignificant whitespace. -/
def isWsChar (c : Char) : Bool :=
  c = ' ' ∨ c = '\t' ∨ c = '\n' ∨ c = '\r'

/-- Drop leading JSON whitespace. -/
def skipWs : List Char → List Char
  | [] => []
  | c :: cs => if isWsChar c then skipWs cs else c :: cs

/-- `json.loads` unescaping of a single-character backslash escape (the
`\uXXXX` form is handled separately). -/
def unescapeChar (c : Char) : Option Char :=
  if c = '"' then some '"'
  else if c = '\\' then some '\\'
  else if c = '/' then some '/'
  else if c = 'n' then some '\n'
  else if c = 't' then some '\t'
  else if c = 'r' then some '\r'
  else if c = 'b' then some '\x08'
  else if c = 'f' then some '\x0c'
  else none

/-- Hexadecimal digit value, both letter cases accepted. -/
def hexVal (c : Char) : Option Nat :=
  if '0' ≤ c ∧ c ≤ '9' then some (c.toNat - 48)
  else if 'a' ≤ c ∧ c ≤ 'f' then some (c.toNat - 87)
  else if 'A' ≤ c ∧ c ≤ 'F' then some (c.toNat - 55)
  else none

/-- Decode a string body into UTF-16-style code units up to and including
the closing quote (the scanner's `scanstring` with `strict=True`): each
raw character contributes its code point, each `\uXXXX` escape its 16-bit
unit (surrogate halves included), each short escape its character.  A raw
control character, an unknown or malformed escape, or a missing closing
quote is an error (`none`); the second component is the input after the
closing quote. -/
def parseStringUnits : List Char → Option (List Nat × List Char)
  | [] => none
  | c :: cs =>
    if c = '"' then some ([], cs)
    else if c = '\\' then
      match cs with
      | [] => none
      | e :: cs2 =>
        if e = 'u' then
          match cs2 with
          | h1 :: h2 :: h3 :: h4 :: cs3 =>
            match hexVal h1, hexVal h2, hexVal h3, hexVal h4 with
            | some a1, some a2, some a3, some a4 =>
              match parseStringUnits cs3 with
              | none => none
              | some (us, rest) =>
                some ((4096 * a1 + 256 * a2 + 16 * a3 + a4) :: us, rest)
            | _, _, _, _ => none
          | _ => none
        else
          match unescapeChar e with
          | none => none
          | some u =>
            match parseStringUnits cs2 with
            | none => none
            | some (us, rest) => some (u.toNat :: us, rest)
    else if c.toNat < 0x20 then none
    else
      match parseStringUnits cs with
      | none => none
      | some (us, rest) => some (c.toNat :: us, rest)

/-- Combine UTF-16-style units into characters, with CPython's surrogate
handling: a high surrogate immediately followed by a low surrogate becomes
one astral character; any surrogate left alone stays in Python's result
string, which no model string can represent, so the result is `none`
(parsed but unmodelled). -/
def combineUnits : List Nat → Option (List Char)
  | [] => some []
  | u :: us =>
    if 0xd800 ≤ u ∧ u < 0xdc00 then
      match us with
      | u2 :: us2 =>
        if 0xdc00 ≤ u2 ∧ u2 < 0xe000 then
          match combineUnits us2 with
          | none => none
          | some t =>
            some (Char.ofNat (0x10000 + (u - 0xd800) * 0x400 + (u2 - 0xdc00)) :: t)
        else none
      | [] => none
    else if 0xdc00 ≤ u ∧ u < 0xe000 then none
    else
      match combineUnits us with
      | none => none
      | some t => some (Char.ofNat u :: t)

/-- Parse a string body: decode the code units, then combine surrogate
pairs; the payload is `none` when the decoded Python string contains a
lone surrogate (a value outside the model). -/
def parseStringBody (input : List Char) :
    Option (Option (List Char) × List Char) :=
  match parseStringUnits input with
  | none => none
  | some (us, rest) => some (combineUnits us, rest)

/-- Split a maximal run of decimal digits off the input. -/
def takeDigits : List Char → List Char × List Char
  | [] => ([], [])
  | c :: cs =>
    if c.isDigit then
      match takeDigits cs with
      | (ds, rest) => (c :: ds, rest)
    else ([], c :: cs)

/-- Numeric value of a decimal digit character. -/
def digitVal (c : Char) : Nat := c.toNat - 48

/-- Numeric value of a most-significant-first digit run. -/
def digitsToNat (ds : List Char) : Nat :=
  ds.foldl (fun a c => 10 * a + digitVal c) 0

/-- Match an expected literal continuation, returning the rest. -/
def dropPrefixChars : List Char → List Char → Option (List Char)
  | [], rest => some rest
  | _ :: _, [] => none
  | p :: ps, c :: cs => if c = p then dropPrefixChars ps cs else none

/-- The integer part of the scanner's number grammar, after any minus
sign: a lone `0`, or a nonzero digit followed by further digits.  A
leading zero is never followed by more digits, so `0123` scans as the
numeral `0` with `123` left over (an error at top level). -/
def parseIntDigits : List Char → Option (List Char × List Char)
  | [] => none
  | c :: cs =>
    if c = '0' then some (['0'], cs)
    else if c.isDigit then
      match takeDigits cs with
      | (ds, rest) => some (c :: ds, rest)
    else none

/-- The fraction suffix of the number grammar, consumed only when the dot
is immediately followed by a digit; the flag records that the numeral is
a float. -/
def fracSuffix : List Char → Bool × List Char
  | p :: c :: cs =>
    if p = '.' ∧ c.isDigit then
      match takeDigits cs with
      | (_, rest) => (true, rest)
    else (false, p :: c :: cs)
  | input => (false, input)

/-- The exponent digits after `e` and an optional sign: at least one digit
must follow or the scanner backtracks to before the `e`. -/
def expDigits : List Char → Option (List Char)
  | [] => none
  | c :: cs => if c.isDigit then some (takeDigits cs).2 else none

/-- The exponent suffix of the number grammar. -/
def expSuffix : List Char → Bool × List Char
  | [] => (false, [])
  | e :: rest =>
    if e = 'e' ∨ e = 'E' then
      match expDigits (match rest with
        | [] => []
        | s :: rest2 => if s = '+' ∨ s = '-' then rest2 else s :: rest2) with
      | some r => (true, r)
      | none => (false, e :: rest)
    else (false, e :: rest)

/-- Fraction and exponent suffixes after the integer part; the numeral is
a float - a value outside the model - exactly when either is present. -/
def floatSuffix (input : List Char) : Bool × List Char :=
  match fracSuffix input with
  | (f1, r1) =>
    match expSuffix r1 with
    | (f2, r2) => (f1 || f2, r2)

/-- The outcome of parsing one value: a model value with the remaining
input, a Python-parseable value the model does not carry (it contains a
float or a lone surrogate) with the remaining input, or a raise. -/
inductive PRes where
  | ok (v : JValue) (rest : List Char)
  | flag (rest : List Char)
  | fail

mutual

/-- Recursive-descent `json.loads` core (the default C scanner): parse one
value off the input.  The fuel argument strictly decreases on every
recursive call; the entry point passes enough fuel for any input of its
length. -/
def parseValue : Nat → List Char → PRes
  | 0, _ => .fail
  | fuel + 1, input =>
    match skipWs input with
    | [] => .fail
    | c :: cs =>
      if c = '"' then
        match parseStringBody cs with
        | none => .fail
        | some (some s, rest) => .ok (.str (String.mk s)) rest
        | some (none, rest) => .flag rest
      else if c = '[' then
        let inner := skipWs cs
        if inner.head? = some ']' then .ok (.arr []) inner.tail
        else
          match parseValue fuel inner with
          | .fail => .fail
          | .flag r => parseArrRest fuel true [] r
          | .ok v r => parseArrRest fuel false [v] r
      else if c = '\x7b' then
        let inner := skipWs cs
        if inner.head? = some '\x7d' then .ok (.obj []) inner.tail
        else if inner.head? = some '"' then
          match parseStringBody inner.tail with
          | none => .fail
          | some (kOpt, r1) =>
            let r1b := skipWs r1
            if r1b.head? = some ':' then
              match parseValue fuel r1b.tail with
              | .fail => .fail
              | .flag r2 => parseObjRest fuel true [] r2
              | .ok v r2 =>
                match kOpt with
                | some k => parseObjRest fuel false [(String.mk k, v)] r2
                | none => parseObjRest fuel true [] r2
            else .fail
        else .fail
      else if c = 'n' then
        match dropPrefixChars ['u', 'l', 'l'] cs with
        | some rest => .ok .null rest
        | none => .fail
      else if c = 't' then
        match dropPrefixChars ['r', 'u', 'e'] cs with
        | some rest => .ok (.bool true) rest
        | none => .fail
      else if c = 'f' then
        match dropPrefixChars ['a', 'l', 's', 'e'] cs with
        | some rest => .ok (.bool false) rest
        | none => .fail
      else if c = 'N' then
        match dropPrefixChars ['a', 'N'] cs with
        | some rest => .flag rest
        | none => .fail
      else if c = 'I' then
        match dropPrefixChars ['n', 'f', 'i', 'n', 'i', 't', 'y'] cs with
        | some rest => .flag rest
        | none => .fail
      else if c = '-' then
        match dropPrefixChars ['I', 'n', 'f', 'i', 'n', 'i', 't', 'y'] cs with
        | some rest => .flag rest
        | none =>
          match parseIntDigits cs with
          | none => .fail
          | some (ds, r) =>
            match floatSuffix r with
            | (true, r2) => .flag r2
            | (false, r2) => .ok (.num (-(digitsToNat ds : Int))) r2
      else if c.isDigit then
        match parseIntDigits (c :: cs) with
        | none => .fail
        | some (ds, r) =>
          match floatSuffix r with
          | (true, r2) => .flag r2
          | (false, r2) => .ok (.num (digitsToNat ds)) r2
      else .fail

/-- Continue an array after an element: `]` closes it, `,` demands
another element; the flag records an element outside the model. -/
def parseArrRest : Nat → Bool → List JValue → List Char → PRes
  | 0, _, _, _ => .fail
  | fuel + 1, flagged, acc, input =>
    let inner := skipWs input
    if inner.head? = some ']' then
      if flagged then .flag inner.tail else .ok (.arr acc) inner.tail
    else if inner.head? = some ',' then
      match parseValue fuel inner.tail with
      | .fail => .fail
      | .flag r => parseArrRest fuel true acc r
      | .ok v r => parseArrRest fuel flagged (acc ++ [v]) r
    else .fail

/-- Continue an object after a member. -/
def parseObjRest : Nat → Bool → List (String × JValue) → List Char → PRes
  | 0, _, _, _ => .fail
  | fuel + 1, flagged, acc, input =>
    let inner := skipWs input
    if inner.head? = some '\x7d' then
      if flagged then .flag inner.tail else .ok (.obj acc) inner.tail
    else if inner.head? = some ',' then
      let k0 := skipWs inner.tail
      if k0.head? = some '"' then
        match parseStringBody k0.tail with
        | none => .fail
        | some (kOpt, r1) =>
          let r1b := skipWs r1
          if r1b.head? = some ':' then
            match parseValue fuel r1b.tail with
            | .fail => .fail
            | .flag r2 => parseObjRest fuel true acc r2
            | .ok v r2 =>
              match kOpt with
              | some k => parseObjRest fuel flagged (acc ++ [(String.mk k, v)]) r2
              | none => parseObjRest fuel true acc r2
          else .fail
      else .fail
    else .fail

end

